import Mathlib

/-!
Verification of the DearBabyMCP recipe search pipeline.

This file shallowly embeds the `solidstart.recipes.search` tool handler and
its helpers (fallback cascade, local post-filters, age-group/stage/language
normalization) together with the relevant parts of the `SolidStartClient`
integration, and proves properties of that embedding.

The embedding models JavaScript strings as Lean `String`s operated on through
character-list helpers (`jsToLower`, `jsToUpper`, `jsTrim`) mirroring
`toLowerCase` / `toUpperCase` / `trim` on the ASCII range, and models
JavaScript truthiness on optional strings/numbers explicitly (absent, the
empty string and the number 0 are falsy).  The external HTTP collaborator is
modelled as an oracle mapping request parameters to either a response or a
collaborator error; the pipeline additionally returns the ordered trace of
collaborator calls it issued.
-/

namespace DearBaby

/-! ## String helpers (embedding of the JS string primitives used) -/

/-- Embedding of JavaScript `String.prototype.toLowerCase` (ASCII range). -/
def jsToLower (s : String) : String := ⟨s.data.map Char.toLower⟩

/-- Embedding of JavaScript `String.prototype.toUpperCase` (ASCII range). -/
def jsToUpper (s : String) : String := ⟨s.data.map Char.toUpper⟩

/-- Embedding of JavaScript `String.prototype.trim`. -/
def jsTrim (s : String) : String :=
  ⟨((s.data.dropWhile Char.isWhitespace).reverse.dropWhile Char.isWhitespace).reverse⟩

/-- JS truthiness of an optional string (`undefined` and `""` are falsy). -/
def truthyS : Option String → Bool
  | none => false
  | some s => !(decide (s = ""))

/-- JS truthiness of an optional number (`undefined` and `0` are falsy). -/
def truthyN : Option Nat → Bool
  | none => false
  | some n => !(decide (n = 0))

/-! ## Data model (from `src/integrations/solidstart/client.ts`) -/

/-- The four age stages of `Recipe["age_group"]`. -/
inductive AgeGroup
  | STAGE_1
  | STAGE_2
  | STAGE_3
  | STAGE_4
deriving DecidableEq, Repr

/-- The fields of a `Recipe` payload that the search pipeline inspects.
Display-only fields (name, description, images, counts, …) pass through the
pipeline unchanged and are represented here only by `id` and `name`.
`total_time_minutes` is not part of the declared TS `Recipe` type but is read
defensively by `computeTotalTime`, so the embedding keeps it as an optional
payload field (`none` models both `undefined` and `null`). -/
structure Recipe where
  id : String
  name : String
  age_group : AgeGroup
  prep_time_minutes : Nat
  cook_time_minutes : Nat
  total_time_minutes : Option Nat := none
  difficulty_level : Option String := none
  allergens : Option (List String) := none
deriving DecidableEq, Repr

/-- `PaginatedResponse<Recipe>` from the client. -/
structure PaginatedResponse where
  data : List Recipe
  count : Nat
  page : Nat
  per_page : Nat
  total_pages : Nat
deriving DecidableEq, Repr

/-- `RecipeSearchParams` (the `is_featured` field is never set by the search
handler and is omitted). -/
structure ListParams where
  age_group : Option AgeGroup := none
  food_type : Option String := none
  search_query : Option String := none
  limit : Nat := 12
  offset : Option Nat := none
  lang : Option String := none
deriving DecidableEq, Repr

/-- `FeaturedRecipesParams` from the client. -/
structure FeaturedRecipesParams where
  age_group : Option AgeGroup := none
  limit : Nat := 12
  lang : Option String := none
deriving DecidableEq, Repr

/-- An error raised by the `SolidStartClient` (wrapped axios failure). -/
structure CollabError where
  message : String
deriving DecidableEq, Repr

/-- The external recipe service, modelled as an oracle from request
parameters to either a response or a collaborator error. -/
structure RecipeSource where
  listRecipes : ListParams → Except CollabError PaginatedResponse
  getFeaturedRecipes : FeaturedRecipesParams → Except CollabError PaginatedResponse

/-- One collaborator call issued by the pipeline, recorded in order. -/
inductive SourceCall
  | list (p : ListParams)
  | featured (p : FeaturedRecipesParams)
deriving DecidableEq, Repr

/-! ## Normalization helpers (from `solidstartTools`) -/

/-- `deriveAgeGroupFromMonths`: months ≤ 6 → STAGE_1, ≤ 8 → STAGE_2,
≤ 10 → STAGE_3, otherwise STAGE_4; `undefined` maps to `undefined`. -/
def deriveAgeGroupFromMonths : Option Nat → Option AgeGroup
  | none => none
  | some months =>
    if months ≤ 6 then some .STAGE_1
    else if months ≤ 8 then some .STAGE_2
    else if months ≤ 10 then some .STAGE_3
    else some .STAGE_4

/-- JS `\w` word characters (ASCII letters, digits, underscore). -/
def isWordChar (c : Char) : Bool :=
  (('A' ≤ c && c ≤ 'Z') || ('a' ≤ c && c ≤ 'z') || ('0' ≤ c && c ≤ '9') || c = '_')

/-- `/^STAGE\s*d/` on a character list: literal `STAGE`, any run of
whitespace, then the digit `d`. -/
def startsStageDigit (cs : List Char) (d : Char) : Bool :=
  match cs with
  | 'S' :: 'T' :: 'A' :: 'G' :: 'E' :: rest =>
    match rest.dropWhile Char.isWhitespace with
    | c :: _ => c = d
    | [] => false
  | _ => false

/-- `/^d\b/` on a character list: leading digit `d` followed by a word
boundary (end of string or a non-word character). -/
def startsDigitBoundary (cs : List Char) (d : Char) : Bool :=
  match cs with
  | c :: rest =>
    c = d && (match rest with
      | [] => true
      | c2 :: _ => !(isWordChar c2))
  | [] => false

/-- `/11\+/` on a character list: the substring `11+` anywhere. -/
def hasElevenPlus : List Char → Bool
  | '1' :: '1' :: '+' :: _ => true
  | _ :: rest => hasElevenPlus rest
  | [] => false

/-- `normalizeStageLabel`: parse a free-text stage label such as
`"Stage 2"` or `"2"`; unrecognized text yields `undefined`. -/
def normalizeStageLabel (stage : String) : Option AgeGroup :=
  if stage = "" then none
  else
    let cs := (jsToUpper (jsTrim stage)).data
    if startsStageDigit cs '1' || startsDigitBoundary cs '1' then some .STAGE_1
    else if startsStageDigit cs '2' || startsDigitBoundary cs '2' then some .STAGE_2
    else if startsStageDigit cs '3' || startsDigitBoundary cs '3' then some .STAGE_3
    else if startsStageDigit cs '4' || startsDigitBoundary cs '4'
        || hasElevenPlus cs then some .STAGE_4
    else none

/-- `normalizeDifficulty`: trim and lowercase; empty input or an
all-whitespace string yields `undefined`.  (In the source both the
recognized-value branch and the fallthrough return the same normalized
string.) -/
def normalizeDifficulty : Option String → Option String
  | none => none
  | some v =>
    if v = "" then none
    else
      let normalized := jsToLower (jsTrim v)
      if normalized = "" then none else some normalized

/-- CJK code points matched by `/[㐀-鿿豈-﫿]/`. -/
def isCjkChar (c : Char) : Bool :=
  (0x3400 ≤ c.toNat && c.toNat ≤ 0x9FFF) || (0xF900 ≤ c.toNat && c.toNat ≤ 0xFAFF)

/-- Latin letters matched by `/[A-Za-z]/`. -/
def isLatinChar (c : Char) : Bool :=
  ('A' ≤ c && c ≤ 'Z') || ('a' ≤ c && c ≤ 'z')

/-- `candidateStrings.filter(Boolean).join(" ")`. -/
def joinedCandidates (candidateStrings : List (Option String)) : String :=
  String.intercalate " " ((candidateStrings.filterMap id).filter (fun s => !(decide (s = ""))))

/-- Whether a string contains a CJK code point. -/
def textHasCjk (s : String) : Bool := s.data.any isCjkChar

/-- Whether a string contains a Latin letter. -/
def textHasLatin (s : String) : Bool := s.data.any isLatinChar

/-- `detectLanguagePreference`, restricted to its candidate-string branch.
(The explicit `rawInput.lang` branch is unreachable in the search handler:
it is only consulted when the schema-parsed `lang` is absent, in which case
the validated raw input holds no usable `lang` either.) -/
def detectLanguagePreference (candidateStrings : List (Option String)) : Option String :=
  let joined := joinedCandidates candidateStrings
  if joined = "" then none
  else
    let hasCjk := textHasCjk joined
    let hasLatin := textHasLatin joined
    if hasCjk && !hasLatin then some "zh"
    else if hasLatin && !hasCjk then some "en"
    else none

/-! ## Local post-filters -/

/-- `shouldIncludeRecipe`: a recipe passes unless the avoid list is
non-empty, the recipe's allergen list is non-empty, and some avoid entry
occurs in the recipe's (Boolean-filtered, lowercased) allergen list. -/
def shouldIncludeRecipe (recipe : Recipe) (allergens : List String) : Bool :=
  if allergens.isEmpty then true
  else
    match recipe.allergens with
    | none => true
    | some l =>
      if l.isEmpty then true
      else
        let recipeAllergens := (l.filter (fun s => !(decide (s = "")))).map jsToLower
        !(allergens.any (fun allergen => recipeAllergens.any (fun x => decide (x = allergen))))

/-- `matchesStage`: pass when no stage was requested, else require equality. -/
def matchesStage (recipe : Recipe) (stage : Option AgeGroup) : Bool :=
  match stage with
  | none => true
  | some st => decide (recipe.age_group = st)

/-- `matchesDifficulty`: pass when no difficulty requested; a recipe without
a (truthy) difficulty label fails a requested difficulty. -/
def matchesDifficulty (recipe : Recipe) (difficulty : Option String) : Bool :=
  match difficulty with
  | none => true
  | some d =>
    if d = "" then true
    else
      match recipe.difficulty_level with
      | none => false
      | some dl => if dl = "" then false else decide (jsToLower dl = d)

/-- `computeTotalTime`: the explicit `total_time_minutes` payload value if it
is a number, otherwise `prep + cook` with a sum of 0 treated as unknown. -/
def computeTotalTime (recipe : Recipe) : Option Nat :=
  match recipe.total_time_minutes with
  | some t => some t
  | none =>
    if recipe.prep_time_minutes + recipe.cook_time_minutes > 0 then
      some (recipe.prep_time_minutes + recipe.cook_time_minutes)
    else none

/-- The three optional time bounds accepted by the search tool. -/
structure TimeBounds where
  maxTotalTime : Option Nat := none
  maxCookTime : Option Nat := none
  maxPrepTime : Option Nat := none
deriving DecidableEq, Repr

/-- `matchesTime`: sequential truthiness-guarded bound checks; a falsy
(unknown or zero) time is exempt from its bound. -/
def matchesTime (recipe : Recipe) (b : TimeBounds) : Bool :=
  if !truthyN b.maxTotalTime && !truthyN b.maxCookTime && !truthyN b.maxPrepTime then true
  else
    if truthyN b.maxTotalTime && truthyN (computeTotalTime recipe)
        && decide ((computeTotalTime recipe).getD 0 > b.maxTotalTime.getD 0) then false
    else if truthyN b.maxCookTime && !(decide (recipe.cook_time_minutes = 0))
        && decide (recipe.cook_time_minutes > b.maxCookTime.getD 0) then false
    else if truthyN b.maxPrepTime && !(decide (recipe.prep_time_minutes = 0))
        && decide (recipe.prep_time_minutes > b.maxPrepTime.getD 0) then false
    else true

/-! ## The search handler (`solidstart.recipes.search`) -/

/-- `SearchInputSchema.parse` output: the validated tool input.  Schema-level
range constraints (limits, non-empty trimmed strings, …) are not baked into
the types; theorems that rely on them take them as hypotheses. -/
structure SearchInput where
  baby_age_months : Option Nat := none
  stage : Option String := none
  age_group : Option AgeGroup := none
  meal_type : Option String := none
  allergens_to_avoid : Option (List String) := none
  query : Option String := none
  difficulty : Option String := none
  max_total_time_minutes : Option Nat := none
  max_cook_time_minutes : Option Nat := none
  max_prep_time_minutes : Option Nat := none
  limit : Option Nat := none
  offset : Option Nat := none
  lang : Option String := none
deriving DecidableEq, Repr

def DEFAULT_SEARCH_LIMIT : Nat := 12

/-- The `normalizedStage` local of the search handler: the stage label is
parsed only when no explicit `age_group` was supplied and a (truthy) stage
string is present. -/
def resolvedStage (input : SearchInput) : Option AgeGroup :=
  match input.age_group, input.stage with
  | none, some s => if s = "" then none else normalizeStageLabel s
  | _, _ => none

/-- The `ageGroup` local of the search handler after the three assignment
steps: explicit enum, else parsed stage label, else derived from months. -/
def resolveAgeGroup (input : SearchInput) : Option AgeGroup :=
  match input.age_group with
  | some g => some g
  | none =>
    match resolvedStage input with
    | some g => some g
    | none => deriveAgeGroupFromMonths input.baby_age_months

/-- The `language` local: `input.lang ?? detectLanguagePreference(...) ?? "zh"`. -/
def searchLanguage (input : SearchInput) : String :=
  (input.lang.orElse (fun _ =>
    detectLanguagePreference [input.query, input.meal_type])).getD "zh"

/-- The `params` object sent to the exact (tier-1) `listRecipes` call. -/
def searchParams (input : SearchInput) : ListParams :=
  { age_group := resolveAgeGroup input
    food_type := input.meal_type
    search_query := input.query
    limit := input.limit.getD DEFAULT_SEARCH_LIMIT
    offset := input.offset
    lang := some (searchLanguage input) }

/-- The `relaxedParams` object literal: query and meal-type dropped, age
group, limit and language kept (no offset key). -/
def relaxedParams (params : ListParams) : ListParams :=
  { age_group := params.age_group
    food_type := none
    search_query := none
    limit := params.limit
    offset := none
    lang := params.lang }

/-- The `ageAgnosticParams` object literal: only limit and language. -/
def ageAgnosticParams (params : ListParams) : ListParams :=
  { age_group := none
    food_type := none
    search_query := none
    limit := params.limit
    offset := none
    lang := params.lang }

/-- The four fallback strategies. -/
inductive Strategy
  | exact
  | relaxed
  | ageAgnostic
  | featuredFallback
deriving DecidableEq, Repr

/-- The params of the tier-4 `getFeaturedRecipes` call:
`age_group: strategy === "ageAgnostic" ? undefined : params.age_group`. -/
def featuredParamsOf (strategy : Strategy) (params : ListParams) : FeaturedRecipesParams :=
  { age_group := if strategy = .ageAgnostic then none else params.age_group
    limit := params.limit
    lang := params.lang }

/-- The state reached when the fallback cascade stops: the strategy tag, the
candidate list, and the value of the handler's `response` variable (which is
only ever assigned from `listRecipes` calls — the featured tier assigns the
candidates but not `response`). -/
structure CascadeResult where
  strategy : Strategy
  candidates : List Recipe
  response : PaginatedResponse
deriving DecidableEq, Repr

/-- Tier 4 (`featuredFallback`): always called when reached; its failure or
success terminates the cascade.  `candidates` become the featured data while
`response` keeps the last `listRecipes` response. -/
def cascadeTier4 (src : RecipeSource) (params : ListParams) (calls : List SourceCall)
    (strategy : Strategy) (response : PaginatedResponse) :
    List SourceCall × Except CollabError CascadeResult :=
  match src.getFeaturedRecipes (featuredParamsOf strategy params) with
  | .error e => (calls ++ [.featured (featuredParamsOf strategy params)], .error e)
  | .ok featured =>
    (calls ++ [.featured (featuredParamsOf strategy params)],
     .ok ⟨.featuredFallback, featured.data, response⟩)

/-- Tier 3 (`ageAgnostic`), guarded by `!candidates.length && params.age_group`;
falls through to tier 4 when the candidate set is still empty, and returns
the current candidates when they are non-empty. -/
def cascadeTier3 (src : RecipeSource) (params : ListParams) (calls : List SourceCall)
    (strategy : Strategy) (response : PaginatedResponse) :
    List SourceCall × Except CollabError CascadeResult :=
  if response.data.isEmpty && params.age_group.isSome then
    match src.listRecipes (ageAgnosticParams params) with
    | .error e => (calls ++ [.list (ageAgnosticParams params)], .error e)
    | .ok r3 =>
      if r3.data.isEmpty then
        cascadeTier4 src params (calls ++ [.list (ageAgnosticParams params)]) .ageAgnostic r3
      else (calls ++ [.list (ageAgnosticParams params)], .ok ⟨.ageAgnostic, r3.data, r3⟩)
  else if response.data.isEmpty then cascadeTier4 src params calls strategy response
  else (calls, .ok ⟨strategy, response.data, response⟩)

/-- Tier 2 (`relaxed`), guarded by
`!candidates.length && (params.search_query || params.food_type)`. -/
def cascadeTier2 (src : RecipeSource) (params : ListParams) (calls : List SourceCall)
    (response : PaginatedResponse) :
    List SourceCall × Except CollabError CascadeResult :=
  if response.data.isEmpty && (truthyS params.search_query || truthyS params.food_type) then
    match src.listRecipes (relaxedParams params) with
    | .error e => (calls ++ [.list (relaxedParams params)], .error e)
    | .ok r2 => cascadeTier3 src params (calls ++ [.list (relaxedParams params)]) .relaxed r2
  else cascadeTier3 src params calls .exact response

/-- The whole fallback cascade (handler lines between the first
`listRecipes` call and the filter application), returning the ordered trace
of collaborator calls alongside the outcome. -/
def runCascade (src : RecipeSource) (params : ListParams) :
    List SourceCall × Except CollabError CascadeResult :=
  match src.listRecipes params with
  | .error e => ([.list params], .error e)
  | .ok r1 => cascadeTier2 src params [.list params] r1

/-- The `structuredContent` fields of the search result that carry pipeline
state (presentational summary text is omitted). -/
structure SearchStructured where
  age_group : Option AgeGroup
  limit : Nat
  pagination_received : Nat
  pagination_count : Nat
  pagination_page : Nat
  pagination_per_page : Nat
  pagination_total_pages : Nat
  excluded_due_to_allergens : Nat
  recipes : List Recipe
  search_strategy : Strategy
  language : String
deriving DecidableEq, Repr

/-- The time bounds taken from the validated input. -/
def searchTimeBounds (input : SearchInput) : TimeBounds :=
  { maxTotalTime := input.max_total_time_minutes
    maxCookTime := input.max_cook_time_minutes
    maxPrepTime := input.max_prep_time_minutes }

/-- The lowercased avoid list (`input.allergens_to_avoid?.map(toLowerCase) ?? []`). -/
def searchAllergensToAvoid (input : SearchInput) : List String :=
  (input.allergens_to_avoid.getD []).map jsToLower

/-- The local post-filter conjunction applied to the candidate set
(allergen, stage, difficulty and time filters with AND semantics). -/
def searchFiltered (input : SearchInput) (candidates : List Recipe) : List Recipe :=
  candidates.filter (fun recipe =>
    shouldIncludeRecipe recipe (searchAllergensToAvoid input) &&
    matchesStage recipe (resolvedStage input) &&
    matchesDifficulty recipe (normalizeDifficulty input.difficulty) &&
    matchesTime recipe (searchTimeBounds input))

/-- The `solidstart.recipes.search` handler: resolve age group and language,
run the fallback cascade, apply the local post-filters, and assemble the
structured result.  A collaborator error from any tier propagates. -/
def searchHandler (src : RecipeSource) (input : SearchInput) :
    List SourceCall × Except CollabError SearchStructured :=
  match runCascade src (searchParams input) with
  | (calls, .error e) => (calls, .error e)
  | (calls, .ok res) =>
    (calls, .ok
      { age_group := (searchParams input).age_group
        limit := (searchParams input).limit
        pagination_received := res.candidates.length
        pagination_count := res.response.count
        pagination_page := res.response.page
        pagination_per_page := res.response.per_page
        pagination_total_pages := res.response.total_pages
        excluded_due_to_allergens :=
          res.candidates.length - (searchFiltered input res.candidates).length
        recipes := searchFiltered input res.candidates
        search_strategy := res.strategy
        language := searchLanguage input })

/-! ## Interaction toggles (`toggleRecipeInteraction` and its tool handlers) -/

inductive ToggleAction
  | like
  | unlike
  | bookmark
  | unbookmark
deriving DecidableEq, Repr

inductive HttpMethod
  | post
  | del
deriving DecidableEq, Repr

/-- One HTTP request issued by `toggleRecipeInteraction` (auth headers are
attached uniformly from configuration and carry no per-call state). -/
structure UpstreamCall where
  method : HttpMethod
  path : String
deriving DecidableEq, Repr

/-- `SolidStartClient.toggleRecipeInteraction`: like/unlike hit the `/like`
endpoint, bookmark/unbookmark the `/bookmark` endpoint; the create actions
POST and the remove actions DELETE.  The client keeps no per-recipe state. -/
def toggleRecipeInteraction (recipeId : String) (action : ToggleAction) : UpstreamCall :=
  let endpoint :=
    match action with
    | .like | .unlike => "/recipes/" ++ recipeId ++ "/like"
    | .bookmark | .unbookmark => "/recipes/" ++ recipeId ++ "/bookmark"
  match action with
  | .like | .bookmark => { method := .post, path := endpoint }
  | .unlike | .unbookmark => { method := .del, path := endpoint }

/-- The `solidstart.recipes.toggleBookmark` handler: choose the action from
the flag, issue the client call, echo the flag back. -/
def toggleBookmarkHandler (recipe_id : String) (bookmarked : Bool) :
    UpstreamCall × (String × Bool) :=
  let action : ToggleAction := if bookmarked then .bookmark else .unbookmark
  (toggleRecipeInteraction recipe_id action, (recipe_id, bookmarked))

/-- The `solidstart.recipes.toggleLike` handler. -/
def toggleLikeHandler (recipe_id : String) (liked : Bool) :
    UpstreamCall × (String × Bool) :=
  let action : ToggleAction := if liked then .like else .unlike
  (toggleRecipeInteraction recipe_id action, (recipe_id, liked))

/-- The trace of upstream calls of one `toggleBookmark` invocation. -/
def toggleBookmarkCalls (recipe_id : String) (bookmarked : Bool) : List UpstreamCall :=
  [(toggleBookmarkHandler recipe_id bookmarked).1]

/-- The trace of upstream calls of one `toggleLike` invocation. -/
def toggleLikeCalls (recipe_id : String) (liked : Bool) : List UpstreamCall :=
  [(toggleLikeHandler recipe_id liked).1]

/-! ## Helper lemmas -/

theorem jsToLower_eq_empty_iff (s : String) : jsToLower s = "" ↔ s = "" := by
  rw [String.ext_iff, String.ext_iff]
  show s.data.map Char.toLower = "".data ↔ s.data = "".data
  have hd : "".data = [] := rfl
  rw [hd]
  simp

theorem truthyN_eq_true_iff (o : Option Nat) : truthyN o = true ↔ ∃ n, o = some n ∧ n ≠ 0 := by
  cases o <;> simp [truthyN]

theorem truthyN_eq_false_iff (o : Option Nat) : truthyN o = false ↔ o = none ∨ o = some 0 := by
  cases o <;> simp [truthyN]

/-! ## Cascade step lemmas -/

theorem runCascade_of_err (src : RecipeSource) (params : ListParams) (e : CollabError)
    (h : src.listRecipes params = .error e) :
    runCascade src params = ([.list params], .error e) := by
  unfold runCascade
  rw [h]

theorem runCascade_of_ok (src : RecipeSource) (params : ListParams) (r1 : PaginatedResponse)
    (h : src.listRecipes params = .ok r1) :
    runCascade src params = cascadeTier2 src params [.list params] r1 := by
  unfold runCascade
  rw [h]

theorem cascadeTier4_err (src : RecipeSource) (params : ListParams)
    (calls : List SourceCall) (strategy : Strategy) (response : PaginatedResponse)
    (e : CollabError)
    (h : src.getFeaturedRecipes (featuredParamsOf strategy params) = .error e) :
    cascadeTier4 src params calls strategy response =
      (calls ++ [.featured (featuredParamsOf strategy params)], .error e) := by
  unfold cascadeTier4
  rw [h]

theorem cascadeTier4_ok (src : RecipeSource) (params : ListParams)
    (calls : List SourceCall) (strategy : Strategy) (response : PaginatedResponse)
    (f : PaginatedResponse)
    (h : src.getFeaturedRecipes (featuredParamsOf strategy params) = .ok f) :
    cascadeTier4 src params calls strategy response =
      (calls ++ [.featured (featuredParamsOf strategy params)],
       .ok ⟨.featuredFallback, f.data, response⟩) := by
  unfold cascadeTier4
  rw [h]

theorem cascadeTier3_stop (src : RecipeSource) (params : ListParams)
    (calls : List SourceCall) (strategy : Strategy) (response : PaginatedResponse)
    (hne : response.data ≠ []) :
    cascadeTier3 src params calls strategy response =
      (calls, .ok ⟨strategy, response.data, response⟩) := by
  have he : response.data.isEmpty = false := by simp [List.isEmpty_iff, hne]
  unfold cascadeTier3
  simp [he]

theorem cascadeTier3_no_age (src : RecipeSource) (params : ListParams)
    (calls : List SourceCall) (strategy : Strategy) (response : PaginatedResponse)
    (hempty : response.data = []) (hage : params.age_group = none) :
    cascadeTier3 src params calls strategy response =
      cascadeTier4 src params calls strategy response := by
  unfold cascadeTier3
  simp [hempty, hage]

theorem cascadeTier3_err (src : RecipeSource) (params : ListParams)
    (calls : List SourceCall) (strategy : Strategy) (response : PaginatedResponse)
    (g : AgeGroup) (e : CollabError)
    (hempty : response.data = []) (hage : params.age_group = some g)
    (herr : src.listRecipes (ageAgnosticParams params) = .error e) :
    cascadeTier3 src params calls strategy response =
      (calls ++ [.list (ageAgnosticParams params)], .error e) := by
  unfold cascadeTier3
  simp [hempty, hage, herr]

theorem cascadeTier3_hit (src : RecipeSource) (params : ListParams)
    (calls : List SourceCall) (strategy : Strategy) (response : PaginatedResponse)
    (g : AgeGroup) (r3 : PaginatedResponse)
    (hempty : response.data = []) (hage : params.age_group = some g)
    (hok : src.listRecipes (ageAgnosticParams params) = .ok r3)
    (hne3 : r3.data ≠ []) :
    cascadeTier3 src params calls strategy response =
      (calls ++ [.list (ageAgnosticParams params)], .ok ⟨.ageAgnostic, r3.data, r3⟩) := by
  have he : r3.data.isEmpty = false := by simp [List.isEmpty_iff, hne3]
  unfold cascadeTier3
  simp [hempty, hage, hok, he]

theorem cascadeTier3_toT4 (src : RecipeSource) (params : ListParams)
    (calls : List SourceCall) (strategy : Strategy) (response : PaginatedResponse)
    (g : AgeGroup) (r3 : PaginatedResponse)
    (hempty : response.data = []) (hage : params.age_group = some g)
    (hok : src.listRecipes (ageAgnosticParams params) = .ok r3)
    (he3 : r3.data = []) :
    cascadeTier3 src params calls strategy response =
      cascadeTier4 src params (calls ++ [.list (ageAgnosticParams params)])
        .ageAgnostic r3 := by
  unfold cascadeTier3
  simp [hempty, hage, hok, he3]

theorem cascadeTier2_guard_false (src : RecipeSource) (params : ListParams)
    (calls : List SourceCall) (response : PaginatedResponse)
    (hg : (response.data.isEmpty
      && (truthyS params.search_query || truthyS params.food_type)) = false) :
    cascadeTier2 src params calls response =
      cascadeTier3 src params calls .exact response := by
  unfold cascadeTier2
  simp [hg]

theorem cascadeTier2_stop (src : RecipeSource) (params : ListParams)
    (calls : List SourceCall) (response : PaginatedResponse)
    (hne : response.data ≠ []) :
    cascadeTier2 src params calls response =
      (calls, .ok ⟨.exact, response.data, response⟩) := by
  have he : response.data.isEmpty = false := by simp [List.isEmpty_iff, hne]
  rw [cascadeTier2_guard_false src params calls response (by simp [he])]
  exact cascadeTier3_stop src params calls .exact response hne

theorem cascadeTier2_no_query (src : RecipeSource) (params : ListParams)
    (calls : List SourceCall) (response : PaginatedResponse)
    (hq : (truthyS params.search_query || truthyS params.food_type) = false) :
    cascadeTier2 src params calls response =
      cascadeTier3 src params calls .exact response :=
  cascadeTier2_guard_false src params calls response (by simp [hq])

theorem cascadeTier2_err (src : RecipeSource) (params : ListParams)
    (calls : List SourceCall) (response : PaginatedResponse) (e : CollabError)
    (hempty : response.data = [])
    (hq : (truthyS params.search_query || truthyS params.food_type) = true)
    (herr : src.listRecipes (relaxedParams params) = .error e) :
    cascadeTier2 src params calls response =
      (calls ++ [.list (relaxedParams params)], .error e) := by
  unfold cascadeTier2
  simp [hempty, hq, herr]

theorem cascadeTier2_ok (src : RecipeSource) (params : ListParams)
    (calls : List SourceCall) (response : PaginatedResponse) (r2 : PaginatedResponse)
    (hempty : response.data = [])
    (hq : (truthyS params.search_query || truthyS params.food_type) = true)
    (hok : src.listRecipes (relaxedParams params) = .ok r2) :
    cascadeTier2 src params calls response =
      cascadeTier3 src params (calls ++ [.list (relaxedParams params)]) .relaxed r2 := by
  unfold cascadeTier2
  simp [hempty, hq, hok]

/-! ## Call-count bounds -/

theorem cascadeTier4_calls_length (src : RecipeSource) (params : ListParams)
    (calls : List SourceCall) (strategy : Strategy) (response : PaginatedResponse) :
    (cascadeTier4 src params calls strategy response).1.length = calls.length + 1 := by
  unfold cascadeTier4
  cases h : src.getFeaturedRecipes (featuredParamsOf strategy params) <;> simp

theorem cascadeTier3_calls_le (src : RecipeSource) (params : ListParams)
    (calls : List SourceCall) (strategy : Strategy) (response : PaginatedResponse) :
    (cascadeTier3 src params calls strategy response).1.length ≤ calls.length + 2 := by
  by_cases hempty : response.data = []
  · cases hage : params.age_group with
    | none =>
      rw [cascadeTier3_no_age src params calls strategy response hempty hage,
        cascadeTier4_calls_length]
      omega
    | some g =>
      cases hsl : src.listRecipes (ageAgnosticParams params) with
      | error e =>
        rw [cascadeTier3_err src params calls strategy response g e hempty hage hsl]
        simp only [List.length_append, List.length_cons, List.length_nil]
        omega
      | ok r3 =>
        by_cases he3 : r3.data = []
        · rw [cascadeTier3_toT4 src params calls strategy response g r3 hempty hage hsl he3,
            cascadeTier4_calls_length]
          simp only [List.length_append, List.length_cons, List.length_nil]
          omega
        · rw [cascadeTier3_hit src params calls strategy response g r3 hempty hage hsl he3]
          simp only [List.length_append, List.length_cons, List.length_nil]
          omega
  · rw [cascadeTier3_stop src params calls strategy response hempty]
    show calls.length ≤ calls.length + 2
    omega

theorem cascadeTier2_calls_le (src : RecipeSource) (params : ListParams)
    (calls : List SourceCall) (response : PaginatedResponse) :
    (cascadeTier2 src params calls response).1.length ≤ calls.length + 3 := by
  by_cases hg : (response.data.isEmpty
      && (truthyS params.search_query || truthyS params.food_type)) = true
  · have hg' := hg
    simp only [Bool.and_eq_true, List.isEmpty_iff] at hg'
    obtain ⟨hempty, hq⟩ := hg'
    cases hsl : src.listRecipes (relaxedParams params) with
    | error e =>
      rw [cascadeTier2_err src params calls response e hempty hq hsl]
      simp only [List.length_append, List.length_cons, List.length_nil]
      omega
    | ok r2 =>
      rw [cascadeTier2_ok src params calls response r2 hempty hq hsl]
      have h3 := cascadeTier3_calls_le src params
        (calls ++ [.list (relaxedParams params)]) .relaxed r2
      simp only [List.length_append, List.length_cons, List.length_nil] at h3
      omega
  · have h3 := cascadeTier3_calls_le src params calls .exact response
    rw [cascadeTier2_guard_false src params calls response (by simpa using hg)]
    omega

theorem runCascade_calls_le (src : RecipeSource) (params : ListParams) :
    (runCascade src params).1.length ≤ 4 := by
  cases h : src.listRecipes params with
  | error e =>
    rw [runCascade_of_err src params e h]
    simp
  | ok r1 =>
    rw [runCascade_of_ok src params r1 h]
    have h2 := cascadeTier2_calls_le src params [.list params] r1
    simp only [List.length_cons, List.length_nil] at h2
    omega

/-! ## Full-path lemmas for the cascade -/

theorem cascade_exact_hit (src : RecipeSource) (params : ListParams)
    (r1 : PaginatedResponse)
    (h1 : src.listRecipes params = .ok r1) (hne : r1.data ≠ []) :
    runCascade src params = ([SourceCall.list params], .ok ⟨.exact, r1.data, r1⟩) := by
  rw [runCascade_of_ok src params r1 h1,
    cascadeTier2_stop src params [SourceCall.list params] r1 hne]

theorem cascade_relaxed_hit (src : RecipeSource) (params : ListParams)
    (r1 r2 : PaginatedResponse)
    (h1 : src.listRecipes params = .ok r1) (h1e : r1.data = [])
    (hq : (truthyS params.search_query || truthyS params.food_type) = true)
    (h2 : src.listRecipes (relaxedParams params) = .ok r2) (h2ne : r2.data ≠ []) :
    runCascade src params =
      ([.list params, .list (relaxedParams params)], .ok ⟨.relaxed, r2.data, r2⟩) := by
  rw [runCascade_of_ok src params r1 h1,
    cascadeTier2_ok src params [SourceCall.list params] r1 r2 h1e hq h2,
    cascadeTier3_stop src params ([SourceCall.list params] ++ [SourceCall.list (relaxedParams params)])
      .relaxed r2 h2ne]
  rfl


theorem cascade_age_hit_afterRelaxed (src : RecipeSource) (params : ListParams)
    (r1 r2 r3 : PaginatedResponse) (g : AgeGroup)
    (h1 : src.listRecipes params = .ok r1) (h1e : r1.data = [])
    (hq : (truthyS params.search_query || truthyS params.food_type) = true)
    (h2 : src.listRecipes (relaxedParams params) = .ok r2) (h2e : r2.data = [])
    (hage : params.age_group = some g)
    (h3 : src.listRecipes (ageAgnosticParams params) = .ok r3) (h3ne : r3.data ≠ []) :
    runCascade src params =
      ([.list params, .list (relaxedParams params), .list (ageAgnosticParams params)],
       .ok ⟨.ageAgnostic, r3.data, r3⟩) := by
  rw [runCascade_of_ok src params r1 h1,
    cascadeTier2_ok src params [SourceCall.list params] r1 r2 h1e hq h2,
    cascadeTier3_hit src params ([SourceCall.list params] ++ [SourceCall.list (relaxedParams params)])
      .relaxed r2 g r3 h2e hage h3 h3ne]
  rfl


theorem cascade_age_hit_direct (src : RecipeSource) (params : ListParams)
    (r1 r3 : PaginatedResponse) (g : AgeGroup)
    (h1 : src.listRecipes params = .ok r1) (h1e : r1.data = [])
    (hq : (truthyS params.search_query || truthyS params.food_type) = false)
    (hage : params.age_group = some g)
    (h3 : src.listRecipes (ageAgnosticParams params) = .ok r3) (h3ne : r3.data ≠ []) :
    runCascade src params =
      ([.list params, .list (ageAgnosticParams params)],
       .ok ⟨.ageAgnostic, r3.data, r3⟩) := by
  rw [runCascade_of_ok src params r1 h1,
    cascadeTier2_no_query src params [SourceCall.list params] r1 hq,
    cascadeTier3_hit src params [SourceCall.list params] .exact r1 g r3 h1e hage h3 h3ne]
  rfl


theorem cascade_featured_full (src : RecipeSource) (params : ListParams)
    (r1 r2 r3 rf : PaginatedResponse) (g : AgeGroup)
    (h1 : src.listRecipes params = .ok r1) (h1e : r1.data = [])
    (hq : (truthyS params.search_query || truthyS params.food_type) = true)
    (h2 : src.listRecipes (relaxedParams params) = .ok r2) (h2e : r2.data = [])
    (hage : params.age_group = some g)
    (h3 : src.listRecipes (ageAgnosticParams params) = .ok r3) (h3e : r3.data = [])
    (hf : src.getFeaturedRecipes (featuredParamsOf .ageAgnostic params) = .ok rf) :
    runCascade src params =
      ([.list params, .list (relaxedParams params), .list (ageAgnosticParams params),
        .featured (featuredParamsOf .ageAgnostic params)],
       .ok ⟨.featuredFallback, rf.data, r3⟩) := by
  rw [runCascade_of_ok src params r1 h1,
    cascadeTier2_ok src params [SourceCall.list params] r1 r2 h1e hq h2,
    cascadeTier3_toT4 src params ([SourceCall.list params] ++ [SourceCall.list (relaxedParams params)])
      .relaxed r2 g r3 h2e hage h3 h3e,
    cascadeTier4_ok src params
      (([SourceCall.list params] ++ [SourceCall.list (relaxedParams params)])
        ++ [SourceCall.list (ageAgnosticParams params)]) .ageAgnostic r3 rf hf]
  rfl


theorem cascade_featured_q_noAge (src : RecipeSource) (params : ListParams)
    (r1 r2 rf : PaginatedResponse)
    (h1 : src.listRecipes params = .ok r1) (h1e : r1.data = [])
    (hq : (truthyS params.search_query || truthyS params.food_type) = true)
    (h2 : src.listRecipes (relaxedParams params) = .ok r2) (h2e : r2.data = [])
    (hage : params.age_group = none)
    (hf : src.getFeaturedRecipes (featuredParamsOf .relaxed params) = .ok rf) :
    runCascade src params =
      ([.list params, .list (relaxedParams params),
        .featured (featuredParamsOf .relaxed params)],
       .ok ⟨.featuredFallback, rf.data, r2⟩) := by
  rw [runCascade_of_ok src params r1 h1,
    cascadeTier2_ok src params [SourceCall.list params] r1 r2 h1e hq h2,
    cascadeTier3_no_age src params ([SourceCall.list params] ++ [SourceCall.list (relaxedParams params)])
      .relaxed r2 h2e hage,
    cascadeTier4_ok src params ([SourceCall.list params] ++ [SourceCall.list (relaxedParams params)])
      .relaxed r2 rf hf]
  rfl


theorem cascade_featured_noQ_age (src : RecipeSource) (params : ListParams)
    (r1 r3 rf : PaginatedResponse) (g : AgeGroup)
    (h1 : src.listRecipes params = .ok r1) (h1e : r1.data = [])
    (hq : (truthyS params.search_query || truthyS params.food_type) = false)
    (hage : params.age_group = some g)
    (h3 : src.listRecipes (ageAgnosticParams params) = .ok r3) (h3e : r3.data = [])
    (hf : src.getFeaturedRecipes (featuredParamsOf .ageAgnostic params) = .ok rf) :
    runCascade src params =
      ([.list params, .list (ageAgnosticParams params),
        .featured (featuredParamsOf .ageAgnostic params)],
       .ok ⟨.featuredFallback, rf.data, r3⟩) := by
  rw [runCascade_of_ok src params r1 h1,
    cascadeTier2_no_query src params [SourceCall.list params] r1 hq,
    cascadeTier3_toT4 src params [SourceCall.list params] .exact r1 g r3 h1e hage h3 h3e,
    cascadeTier4_ok src params ([SourceCall.list params] ++ [SourceCall.list (ageAgnosticParams params)])
      .ageAgnostic r3 rf hf]
  rfl


theorem cascade_featured_noQ_noAge (src : RecipeSource) (params : ListParams)
    (r1 rf : PaginatedResponse)
    (h1 : src.listRecipes params = .ok r1) (h1e : r1.data = [])
    (hq : (truthyS params.search_query || truthyS params.food_type) = false)
    (hage : params.age_group = none)
    (hf : src.getFeaturedRecipes (featuredParamsOf .exact params) = .ok rf) :
    runCascade src params =
      ([.list params, .featured (featuredParamsOf .exact params)],
       .ok ⟨.featuredFallback, rf.data, r1⟩) := by
  rw [runCascade_of_ok src params r1 h1,
    cascadeTier2_no_query src params [SourceCall.list params] r1 hq,
    cascadeTier3_no_age src params [SourceCall.list params] .exact r1 h1e hage,
    cascadeTier4_ok src params [SourceCall.list params] .exact r1 rf hf]
  rfl


theorem cascade_err_t2 (src : RecipeSource) (params : ListParams)
    (r1 : PaginatedResponse) (e : CollabError)
    (h1 : src.listRecipes params = .ok r1) (h1e : r1.data = [])
    (hq : (truthyS params.search_query || truthyS params.food_type) = true)
    (herr : src.listRecipes (relaxedParams params) = .error e) :
    runCascade src params =
      ([.list params, .list (relaxedParams params)], .error e) := by
  rw [runCascade_of_ok src params r1 h1,
    cascadeTier2_err src params [SourceCall.list params] r1 e h1e hq herr]
  rfl


theorem cascade_err_t3_afterRelaxed (src : RecipeSource) (params : ListParams)
    (r1 r2 : PaginatedResponse) (g : AgeGroup) (e : CollabError)
    (h1 : src.listRecipes params = .ok r1) (h1e : r1.data = [])
    (hq : (truthyS params.search_query || truthyS params.food_type) = true)
    (h2 : src.listRecipes (relaxedParams params) = .ok r2) (h2e : r2.data = [])
    (hage : params.age_group = some g)
    (herr : src.listRecipes (ageAgnosticParams params) = .error e) :
    runCascade src params =
      ([.list params, .list (relaxedParams params), .list (ageAgnosticParams params)],
       .error e) := by
  rw [runCascade_of_ok src params r1 h1,
    cascadeTier2_ok src params [SourceCall.list params] r1 r2 h1e hq h2,
    cascadeTier3_err src params ([SourceCall.list params] ++ [SourceCall.list (relaxedParams params)])
      .relaxed r2 g e h2e hage herr]
  rfl


theorem cascade_err_t3_direct (src : RecipeSource) (params : ListParams)
    (r1 : PaginatedResponse) (g : AgeGroup) (e : CollabError)
    (h1 : src.listRecipes params = .ok r1) (h1e : r1.data = [])
    (hq : (truthyS params.search_query || truthyS params.food_type) = false)
    (hage : params.age_group = some g)
    (herr : src.listRecipes (ageAgnosticParams params) = .error e) :
    runCascade src params =
      ([.list params, .list (ageAgnosticParams params)], .error e) := by
  rw [runCascade_of_ok src params r1 h1,
    cascadeTier2_no_query src params [SourceCall.list params] r1 hq,
    cascadeTier3_err src params [SourceCall.list params] .exact r1 g e h1e hage herr]
  rfl


theorem cascade_err_t4_full (src : RecipeSource) (params : ListParams)
    (r1 r2 r3 : PaginatedResponse) (g : AgeGroup) (e : CollabError)
    (h1 : src.listRecipes params = .ok r1) (h1e : r1.data = [])
    (hq : (truthyS params.search_query || truthyS params.food_type) = true)
    (h2 : src.listRecipes (relaxedParams params) = .ok r2) (h2e : r2.data = [])
    (hage : params.age_group = some g)
    (h3 : src.listRecipes (ageAgnosticParams params) = .ok r3) (h3e : r3.data = [])
    (herr : src.getFeaturedRecipes (featuredParamsOf .ageAgnostic params) = .error e) :
    runCascade src params =
      ([.list params, .list (relaxedParams params), .list (ageAgnosticParams params),
        .featured (featuredParamsOf .ageAgnostic params)], .error e) := by
  rw [runCascade_of_ok src params r1 h1,
    cascadeTier2_ok src params [SourceCall.list params] r1 r2 h1e hq h2,
    cascadeTier3_toT4 src params ([SourceCall.list params] ++ [SourceCall.list (relaxedParams params)])
      .relaxed r2 g r3 h2e hage h3 h3e,
    cascadeTier4_err src params
      (([SourceCall.list params] ++ [SourceCall.list (relaxedParams params)])
        ++ [SourceCall.list (ageAgnosticParams params)]) .ageAgnostic r3 e herr]
  rfl


theorem cascade_err_t4_q_noAge (src : RecipeSource) (params : ListParams)
    (r1 r2 : PaginatedResponse) (e : CollabError)
    (h1 : src.listRecipes params = .ok r1) (h1e : r1.data = [])
    (hq : (truthyS params.search_query || truthyS params.food_type) = true)
    (h2 : src.listRecipes (relaxedParams params) = .ok r2) (h2e : r2.data = [])
    (hage : params.age_group = none)
    (herr : src.getFeaturedRecipes (featuredParamsOf .relaxed params) = .error e) :
    runCascade src params =
      ([.list params, .list (relaxedParams params),
        .featured (featuredParamsOf .relaxed params)], .error e) := by
  rw [runCascade_of_ok src params r1 h1,
    cascadeTier2_ok src params [SourceCall.list params] r1 r2 h1e hq h2,
    cascadeTier3_no_age src params ([SourceCall.list params] ++ [SourceCall.list (relaxedParams params)])
      .relaxed r2 h2e hage,
    cascadeTier4_err src params ([SourceCall.list params] ++ [SourceCall.list (relaxedParams params)])
      .relaxed r2 e herr]
  rfl


theorem cascade_err_t4_noQ_age (src : RecipeSource) (params : ListParams)
    (r1 r3 : PaginatedResponse) (g : AgeGroup) (e : CollabError)
    (h1 : src.listRecipes params = .ok r1) (h1e : r1.data = [])
    (hq : (truthyS params.search_query || truthyS params.food_type) = false)
    (hage : params.age_group = some g)
    (h3 : src.listRecipes (ageAgnosticParams params) = .ok r3) (h3e : r3.data = [])
    (herr : src.getFeaturedRecipes (featuredParamsOf .ageAgnostic params) = .error e) :
    runCascade src params =
      ([.list params, .list (ageAgnosticParams params),
        .featured (featuredParamsOf .ageAgnostic params)], .error e) := by
  rw [runCascade_of_ok src params r1 h1,
    cascadeTier2_no_query src params [SourceCall.list params] r1 hq,
    cascadeTier3_toT4 src params [SourceCall.list params] .exact r1 g r3 h1e hage h3 h3e,
    cascadeTier4_err src params ([SourceCall.list params] ++ [SourceCall.list (ageAgnosticParams params)])
      .ageAgnostic r3 e herr]
  rfl


theorem cascade_err_t4_noQ_noAge (src : RecipeSource) (params : ListParams)
    (r1 : PaginatedResponse) (e : CollabError)
    (h1 : src.listRecipes params = .ok r1) (h1e : r1.data = [])
    (hq : (truthyS params.search_query || truthyS params.food_type) = false)
    (hage : params.age_group = none)
    (herr : src.getFeaturedRecipes (featuredParamsOf .exact params) = .error e) :
    runCascade src params =
      ([.list params, .featured (featuredParamsOf .exact params)], .error e) := by
  rw [runCascade_of_ok src params r1 h1,
    cascadeTier2_no_query src params [SourceCall.list params] r1 hq,
    cascadeTier3_no_age src params [SourceCall.list params] .exact r1 h1e hage,
    cascadeTier4_err src params [SourceCall.list params] .exact r1 e herr]
  rfl

/-! ## Handler wrapper lemmas -/

theorem searchHandler_of_cascade_err (src : RecipeSource) (input : SearchInput)
    (calls : List SourceCall) (e : CollabError)
    (h : runCascade src (searchParams input) = (calls, .error e)) :
    searchHandler src input = (calls, .error e) := by
  unfold searchHandler
  rw [h]

theorem searchHandler_of_cascade_ok (src : RecipeSource) (input : SearchInput)
    (calls : List SourceCall) (res : CascadeResult)
    (h : runCascade src (searchParams input) = (calls, .ok res)) :
    searchHandler src input = (calls, .ok
      { age_group := (searchParams input).age_group
        limit := (searchParams input).limit
        pagination_received := res.candidates.length
        pagination_count := res.response.count
        pagination_page := res.response.page
        pagination_per_page := res.response.per_page
        pagination_total_pages := res.response.total_pages
        excluded_due_to_allergens :=
          res.candidates.length - (searchFiltered input res.candidates).length
        recipes := searchFiltered input res.candidates
        search_strategy := res.strategy
        language := searchLanguage input }) := by
  unfold searchHandler
  rw [h]

theorem mem_searchFiltered_stage (input : SearchInput) (cands : List Recipe)
    (st : AgeGroup) (r : Recipe)
    (hstage : resolvedStage input = some st)
    (hr : r ∈ searchFiltered input cands) : r.age_group = st := by
  unfold searchFiltered at hr
  rw [List.mem_filter] at hr
  obtain ⟨-, hp⟩ := hr
  rw [hstage] at hp
  simp only [Bool.and_eq_true] at hp
  have hms := hp.1.1.2
  simpa [matchesStage] using hms

/-! ## Concrete fixtures used by witnesses -/

def emptyPage : PaginatedResponse := ⟨[], 0, 1, 12, 0⟩

def recStage1 : Recipe :=
  { id := "r-s1", name := "apple puree", age_group := .STAGE_1,
    prep_time_minutes := 5, cook_time_minutes := 0 }

def recStage2 : Recipe :=
  { id := "r-s2", name := "veggie congee", age_group := .STAGE_2,
    prep_time_minutes := 5, cook_time_minutes := 10 }

def featuredPage : PaginatedResponse := ⟨[recStage1, recStage2], 2, 1, 10, 1⟩

def srcAllEmpty : RecipeSource :=
  { listRecipes := fun _ => .ok emptyPage
    getFeaturedRecipes := fun _ => .ok emptyPage }

def srcFeaturedOnly : RecipeSource :=
  { listRecipes := fun _ => .ok emptyPage
    getFeaturedRecipes := fun _ => .ok featuredPage }

def srcDown : RecipeSource :=
  { listRecipes := fun _ => .error ⟨"SolidStart API error (no-status): timeout"⟩
    getFeaturedRecipes := fun _ => .error ⟨"SolidStart API error (no-status): timeout"⟩ }

/-! ## Claim theorems -/

/-- C1: the fallback cascade runs in the strict order exact, relaxed,
ageAgnostic, featuredFallback, each later tier only on a zero-candidate
predecessor; relaxed fires only when a free-text query or meal-type filter
was used and drops exactly those two (keeping age group, limit, language);
ageAgnostic fires only when an age group was in the active filter set and
also drops it; featuredFallback always runs last, with age group undefined
exactly when the previous tier was ageAgnostic and the original age group
otherwise; the pipeline stops at the first tier with candidates, makes at
most 4 collaborator calls, and the strategy tag names the producing tier. -/
theorem search_fallback_cascade (src : RecipeSource) (params : ListParams) :
    ((runCascade src params).1.length ≤ 4) ∧
    (relaxedParams params =
      { age_group := params.age_group, food_type := none, search_query := none,
        limit := params.limit, offset := none, lang := params.lang }) ∧
    (ageAgnosticParams params =
      { age_group := none, food_type := none, search_query := none,
        limit := params.limit, offset := none, lang := params.lang }) ∧
    (∀ st, featuredParamsOf st params =
      { age_group := if st = Strategy.ageAgnostic then none else params.age_group,
        limit := params.limit, lang := params.lang }) ∧
    (∀ r1, src.listRecipes params = .ok r1 → r1.data ≠ [] →
      runCascade src params = ([.list params], .ok ⟨.exact, r1.data, r1⟩)) ∧
    (∀ r1 r2, src.listRecipes params = .ok r1 → r1.data = [] →
      (truthyS params.search_query || truthyS params.food_type) = true →
      src.listRecipes (relaxedParams params) = .ok r2 → r2.data ≠ [] →
      runCascade src params =
        ([.list params, .list (relaxedParams params)], .ok ⟨.relaxed, r2.data, r2⟩)) ∧
    (∀ r1 r2 r3 g, src.listRecipes params = .ok r1 → r1.data = [] →
      (truthyS params.search_query || truthyS params.food_type) = true →
      src.listRecipes (relaxedParams params) = .ok r2 → r2.data = [] →
      params.age_group = some g →
      src.listRecipes (ageAgnosticParams params) = .ok r3 → r3.data ≠ [] →
      runCascade src params =
        ([.list params, .list (relaxedParams params), .list (ageAgnosticParams params)],
         .ok ⟨.ageAgnostic, r3.data, r3⟩)) ∧
    (∀ r1 r3 g, src.listRecipes params = .ok r1 → r1.data = [] →
      (truthyS params.search_query || truthyS params.food_type) = false →
      params.age_group = some g →
      src.listRecipes (ageAgnosticParams params) = .ok r3 → r3.data ≠ [] →
      runCascade src params =
        ([.list params, .list (ageAgnosticParams params)],
         .ok ⟨.ageAgnostic, r3.data, r3⟩)) ∧
    (∀ r1 r2 r3 rf g, src.listRecipes params = .ok r1 → r1.data = [] →
      (truthyS params.search_query || truthyS params.food_type) = true →
      src.listRecipes (relaxedParams params) = .ok r2 → r2.data = [] →
      params.age_group = some g →
      src.listRecipes (ageAgnosticParams params) = .ok r3 → r3.data = [] →
      src.getFeaturedRecipes (featuredParamsOf .ageAgnostic params) = .ok rf →
      runCascade src params =
        ([.list params, .list (relaxedParams params), .list (ageAgnosticParams params),
          .featured (featuredParamsOf .ageAgnostic params)],
         .ok ⟨.featuredFallback, rf.data, r3⟩)) ∧
    (∀ r1 r2 rf, src.listRecipes params = .ok r1 → r1.data = [] →
      (truthyS params.search_query || truthyS params.food_type) = true →
      src.listRecipes (relaxedParams params) = .ok r2 → r2.data = [] →
      params.age_group = none →
      src.getFeaturedRecipes (featuredParamsOf .relaxed params) = .ok rf →
      runCascade src params =
        ([.list params, .list (relaxedParams params),
          .featured (featuredParamsOf .relaxed params)],
         .ok ⟨.featuredFallback, rf.data, r2⟩)) ∧
    (∀ r1 r3 rf g, src.listRecipes params = .ok r1 → r1.data = [] →
      (truthyS params.search_query || truthyS params.food_type) = false →
      params.age_group = some g →
      src.listRecipes (ageAgnosticParams params) = .ok r3 → r3.data = [] →
      src.getFeaturedRecipes (featuredParamsOf .ageAgnostic params) = .ok rf →
      runCascade src params =
        ([.list params, .list (ageAgnosticParams params),
          .featured (featuredParamsOf .ageAgnostic params)],
         .ok ⟨.featuredFallback, rf.data, r3⟩)) ∧
    (∀ r1 rf, src.listRecipes params = .ok r1 → r1.data = [] →
      (truthyS params.search_query || truthyS params.food_type) = false →
      params.age_group = none →
      src.getFeaturedRecipes (featuredParamsOf .exact params) = .ok rf →
      runCascade src params =
        ([.list params, .featured (featuredParamsOf .exact params)],
         .ok ⟨.featuredFallback, rf.data, r1⟩)) := by
  refine ⟨runCascade_calls_le src params, rfl, rfl, fun st => rfl,
    ?_, ?_, ?_, ?_, ?_, ?_, ?_, ?_⟩
  · intro r1 h1 hne
    exact cascade_exact_hit src params r1 h1 hne
  · intro r1 r2 h1 h1e hq h2 h2ne
    exact cascade_relaxed_hit src params r1 r2 h1 h1e hq h2 h2ne
  · intro r1 r2 r3 g h1 h1e hq h2 h2e hage h3 h3ne
    exact cascade_age_hit_afterRelaxed src params r1 r2 r3 g h1 h1e hq h2 h2e hage h3 h3ne
  · intro r1 r3 g h1 h1e hq hage h3 h3ne
    exact cascade_age_hit_direct src params r1 r3 g h1 h1e hq hage h3 h3ne
  · intro r1 r2 r3 rf g h1 h1e hq h2 h2e hage h3 h3e hf
    exact cascade_featured_full src params r1 r2 r3 rf g h1 h1e hq h2 h2e hage h3 h3e hf
  · intro r1 r2 rf h1 h1e hq h2 h2e hage hf
    exact cascade_featured_q_noAge src params r1 r2 rf h1 h1e hq h2 h2e hage hf
  · intro r1 r3 rf g h1 h1e hq hage h3 h3e hf
    exact cascade_featured_noQ_age src params r1 r3 rf g h1 h1e hq hage h3 h3e hf
  · intro r1 rf h1 h1e hq hage hf
    exact cascade_featured_noQ_noAge src params r1 rf h1 h1e hq hage hf

/-- C7: `deriveAgeGroup` maps months ≤ 6 to STAGE_1, 7–8 to STAGE_2, 9–10 to
STAGE_3, ≥ 11 to STAGE_4, and an undefined input to an undefined output. -/
theorem deriveAgeGroup_spec :
    (∀ m : Nat, m ≤ 6 → deriveAgeGroupFromMonths (some m) = some AgeGroup.STAGE_1) ∧
    (∀ m : Nat, 7 ≤ m → m ≤ 8 → deriveAgeGroupFromMonths (some m) = some AgeGroup.STAGE_2) ∧
    (∀ m : Nat, 9 ≤ m → m ≤ 10 → deriveAgeGroupFromMonths (some m) = some AgeGroup.STAGE_3) ∧
    (∀ m : Nat, 11 ≤ m → deriveAgeGroupFromMonths (some m) = some AgeGroup.STAGE_4) ∧
    deriveAgeGroupFromMonths none = none := by
  refine ⟨?_, ?_, ?_, ?_, rfl⟩
  · intro m h
    simp only [deriveAgeGroupFromMonths]
    rw [if_pos h]
  · intro m h1 h2
    simp only [deriveAgeGroupFromMonths]
    rw [if_neg (by omega), if_pos (by omega)]
  · intro m h1 h2
    simp only [deriveAgeGroupFromMonths]
    rw [if_neg (by omega), if_neg (by omega), if_pos (by omega)]
  · intro m h
    simp only [deriveAgeGroupFromMonths]
    rw [if_neg (by omega), if_neg (by omega), if_neg (by omega)]

/-- Witness for C7 at concrete month values. -/
theorem deriveAgeGroup_spec_witness :
    deriveAgeGroupFromMonths (some 5) = some AgeGroup.STAGE_1 ∧
    deriveAgeGroupFromMonths (some 7) = some AgeGroup.STAGE_2 ∧
    deriveAgeGroupFromMonths (some 10) = some AgeGroup.STAGE_3 ∧
    deriveAgeGroupFromMonths (some 14) = some AgeGroup.STAGE_4 :=
  ⟨deriveAgeGroup_spec.1 5 (by decide),
   deriveAgeGroup_spec.2.1 7 (by decide) (by decide),
   deriveAgeGroup_spec.2.2.1 10 (by decide) (by decide),
   deriveAgeGroup_spec.2.2.2.1 14 (by decide)⟩

/-- C8: when resolving the age group, an explicit `age_group` enum always
wins; otherwise a recognized free-text stage label wins; only when both are
absent or unrecognized is the months-derived value used. -/
theorem ageGroup_precedence (input : SearchInput) :
    (∀ g, input.age_group = some g → resolveAgeGroup input = some g) ∧
    (input.age_group = none →
      ∀ s g, input.stage = some s → normalizeStageLabel s = some g →
        resolveAgeGroup input = some g) ∧
    (input.age_group = none →
      (input.stage = none ∨ ∃ s, input.stage = some s ∧ normalizeStageLabel s = none) →
      resolveAgeGroup input = deriveAgeGroupFromMonths input.baby_age_months) := by
  refine ⟨?_, ?_, ?_⟩
  · intro g hg
    unfold resolveAgeGroup
    rw [hg]
  · intro hnone s g hs hg
    have hse : s ≠ "" := by
      intro he
      rw [he] at hg
      simp [normalizeStageLabel] at hg
    unfold resolveAgeGroup resolvedStage
    rw [hnone, hs]
    simp [hse, hg]
  · intro hnone hstage
    unfold resolveAgeGroup resolvedStage
    rw [hnone]
    rcases hstage with h | ⟨s, hs, hn⟩
    · rw [h]
    · rw [hs]
      by_cases hse : s = "" <;> simp [hse, hn]

/-- Witness for C8: explicit enum beats a stage label, a stage label beats
months, unrecognized text falls through to months. -/
theorem ageGroup_precedence_witness :
    resolveAgeGroup
      { age_group := some AgeGroup.STAGE_3, stage := some "1",
        baby_age_months := some 12 } = some AgeGroup.STAGE_3 ∧
    resolveAgeGroup { stage := some "Stage 2", baby_age_months := some 12 } =
      some AgeGroup.STAGE_2 ∧
    resolveAgeGroup { stage := some "toddler", baby_age_months := some 7 } =
      deriveAgeGroupFromMonths (some 7) :=
  ⟨(ageGroup_precedence _).1 AgeGroup.STAGE_3 rfl,
   (ageGroup_precedence _).2.1 rfl "Stage 2" AgeGroup.STAGE_2 rfl (by decide),
   (ageGroup_precedence _).2.2 rfl (Or.inr ⟨"toddler", rfl, by decide⟩)⟩

/-- C3: the allergen filter excludes a recipe iff its allergen list is
non-empty and contains, case-insensitively, an entry of the caller's avoid
list; null/absent/empty allergen data is always kept, and an empty avoid
list keeps every recipe.  The avoid-list entries are assumed non-empty, as
guaranteed by the tool schema (`trim().min(1)`). -/
theorem allergen_filter_spec (r : Recipe) (avoid : List String)
    (hA : ∀ a ∈ avoid, a ≠ "") :
    (shouldIncludeRecipe r (avoid.map jsToLower) = false ↔
      ∃ l, r.allergens = some l ∧ l ≠ [] ∧
        ∃ x ∈ l, ∃ a ∈ avoid, jsToLower x = jsToLower a) ∧
    (r.allergens = none → shouldIncludeRecipe r (avoid.map jsToLower) = true) ∧
    (r.allergens = some [] → shouldIncludeRecipe r (avoid.map jsToLower) = true) ∧
    (avoid = [] → shouldIncludeRecipe r (avoid.map jsToLower) = true) := by
  refine ⟨?_, ?_, ?_, ?_⟩
  · by_cases hav : avoid = []
    · subst hav
      simp [shouldIncludeRecipe]
    · have hne : (avoid.map jsToLower).isEmpty = false := by
        simp [List.isEmpty_iff, hav]
      cases hall : r.allergens with
      | none => simp [shouldIncludeRecipe, hall]
      | some l =>
        by_cases hl : l = []
        · subst hl
          simp [shouldIncludeRecipe, hall]
        · have hle : l.isEmpty = false := by simp [List.isEmpty_iff, hl]
          simp only [shouldIncludeRecipe, hall, hne, hle, Bool.false_eq_true,
            if_false, Bool.not_eq_false', List.any_eq_true, List.mem_map,
            List.mem_filter, decide_eq_true_eq, Option.some.injEq]
          constructor
          · rintro ⟨la, ⟨a, ha, rfl⟩, z, ⟨y, ⟨hy, hyne⟩, rfl⟩, hz⟩
            exact ⟨l, rfl, hl, y, hy, a, ha, hz⟩
          · rintro ⟨l', rfl, -, x, hx, a, ha, hxa⟩
            have hxne : x ≠ "" := by
              intro hxe
              have hxl : jsToLower x = "" := by rw [hxe]; rfl
              rw [hxa] at hxl
              exact hA a ha ((jsToLower_eq_empty_iff a).mp hxl)
            exact ⟨jsToLower a, ⟨a, ha, rfl⟩, jsToLower x,
              ⟨x, ⟨hx, by simpa using hxne⟩, rfl⟩, hxa⟩
  · intro h
    unfold shouldIncludeRecipe
    rw [h]
    split <;> rfl
  · intro h
    unfold shouldIncludeRecipe
    rw [h]
    split <;> rfl
  · intro h
    subst h
    rfl

/-- Witness for C3: `["peanut"]` excludes `["Peanut", "egg"]` and keeps a
recipe with no allergen data. -/
theorem allergen_filter_spec_witness :
    (shouldIncludeRecipe
      { id := "r1", name := "p", age_group := AgeGroup.STAGE_2,
        prep_time_minutes := 5, cook_time_minutes := 10,
        allergens := some ["Peanut", "egg"] }
      (["peanut"].map jsToLower) = false) ∧
    (shouldIncludeRecipe
      { id := "r2", name := "q", age_group := AgeGroup.STAGE_2,
        prep_time_minutes := 0, cook_time_minutes := 0 }
      (["peanut"].map jsToLower) = true) :=
  ⟨(allergen_filter_spec _ ["peanut"] (by decide)).1.mpr
      ⟨["Peanut", "egg"], rfl, by decide, "Peanut", by decide, "peanut", by decide, by decide⟩,
   (allergen_filter_spec _ ["peanut"] (by decide)).2.1 rfl⟩

/-- C5: `totalTime` is the explicit payload value when present, otherwise
`prep + cook` with a sum of 0 treated as unknown; each time filter excludes
only when its bound is given, the corresponding time is known (non-zero) and
exceeds the bound; an all-zero-times recipe is never excluded. -/
theorem time_filter_spec (r : Recipe) (b : TimeBounds) :
    (∀ t, r.total_time_minutes = some t → computeTotalTime r = some t) ∧
    (r.total_time_minutes = none → r.prep_time_minutes + r.cook_time_minutes ≠ 0 →
      computeTotalTime r = some (r.prep_time_minutes + r.cook_time_minutes)) ∧
    (r.total_time_minutes = none → r.prep_time_minutes + r.cook_time_minutes = 0 →
      computeTotalTime r = none) ∧
    (matchesTime r b = false →
      (∃ m, b.maxTotalTime = some m ∧ ∃ t, computeTotalTime r = some t ∧ t ≠ 0 ∧ m < t) ∨
      (∃ m, b.maxCookTime = some m ∧ r.cook_time_minutes ≠ 0 ∧ m < r.cook_time_minutes) ∨
      (∃ m, b.maxPrepTime = some m ∧ r.prep_time_minutes ≠ 0 ∧ m < r.prep_time_minutes)) ∧
    (r.prep_time_minutes = 0 → r.cook_time_minutes = 0 → r.total_time_minutes = none →
      matchesTime r b = true) := by
  refine ⟨?_, ?_, ?_, ?_, ?_⟩
  · intro t ht
    simp [computeTotalTime, ht]
  · intro hnone hsum
    simp only [computeTotalTime, hnone]
    rw [if_pos (by omega)]
  · intro hnone hsum
    simp only [computeTotalTime, hnone]
    rw [if_neg (by omega)]
  · intro hfalse
    unfold matchesTime at hfalse
    by_cases h0 : (!truthyN b.maxTotalTime && !truthyN b.maxCookTime
        && !truthyN b.maxPrepTime) = true
    · rw [if_pos h0] at hfalse
      exact absurd hfalse (by simp)
    · rw [if_neg h0] at hfalse
      by_cases h1 : (truthyN b.maxTotalTime && truthyN (computeTotalTime r)
          && decide ((computeTotalTime r).getD 0 > b.maxTotalTime.getD 0)) = true
      · left
        simp only [Bool.and_eq_true, decide_eq_true_eq, truthyN_eq_true_iff] at h1
        obtain ⟨⟨⟨m, hm, hm0⟩, t, hto, ht0⟩, hgt⟩ := h1
        rw [hm, hto] at hgt
        exact ⟨m, hm, t, hto, ht0, by simpa using hgt⟩
      · rw [if_neg h1] at hfalse
        by_cases h2 : (truthyN b.maxCookTime && !decide (r.cook_time_minutes = 0)
            && decide (r.cook_time_minutes > b.maxCookTime.getD 0)) = true
        · right; left
          simp only [Bool.and_eq_true, Bool.not_eq_true', decide_eq_false_iff_not,
            decide_eq_true_eq, truthyN_eq_true_iff] at h2
          obtain ⟨⟨⟨m, hm, hm0⟩, hck⟩, hgt⟩ := h2
          rw [hm] at hgt
          exact ⟨m, hm, hck, by simpa using hgt⟩
        · rw [if_neg h2] at hfalse
          by_cases h3 : (truthyN b.maxPrepTime && !decide (r.prep_time_minutes = 0)
              && decide (r.prep_time_minutes > b.maxPrepTime.getD 0)) = true
          · right; right
            simp only [Bool.and_eq_true, Bool.not_eq_true', decide_eq_false_iff_not,
              decide_eq_true_eq, truthyN_eq_true_iff] at h3
            obtain ⟨⟨⟨m, hm, hm0⟩, hpk⟩, hgt⟩ := h3
            rw [hm] at hgt
            exact ⟨m, hm, hpk, by simpa using hgt⟩
          · rw [if_neg h3] at hfalse
            exact absurd hfalse (by simp)
  · intro hp hc ht
    have htotal : computeTotalTime r = none := by
      simp only [computeTotalTime, ht]
      rw [if_neg (by omega)]
    unfold matchesTime
    by_cases h0 : (!truthyN b.maxTotalTime && !truthyN b.maxCookTime
        && !truthyN b.maxPrepTime) = true
    · rw [if_pos h0]
    · rw [if_neg h0]
      rw [htotal]
      simp [truthyN, hp, hc]

/-- Witness for C5: a recipe with zero prep/cook and no explicit total time
passes a 10-minute total-time bound, and explicit payload totals are used. -/
theorem time_filter_spec_witness :
    (matchesTime
      { id := "r2", name := "q", age_group := AgeGroup.STAGE_2,
        prep_time_minutes := 0, cook_time_minutes := 0 }
      { maxTotalTime := some 10 } = true) ∧
    (computeTotalTime
      { id := "r3", name := "s", age_group := AgeGroup.STAGE_1,
        prep_time_minutes := 5, cook_time_minutes := 10,
        total_time_minutes := some 40 } = some 40) :=
  ⟨(time_filter_spec _ { maxTotalTime := some 10 }).2.2.2.2 rfl rfl rfl,
   (time_filter_spec _ { }).1 40 rfl⟩

/-- C4 counterexample: with the language tag omitted and a mixed-script
query (Latin letters and CJK), the claim says the language is left
undefined for the upstream default; the handler instead applies the local
default and sends `lang = "zh"` upstream even though script detection
returned no preference. -/
theorem language_inference_counterexample :
    (searchParams { query := some "rice 粥" }).lang = some "zh" ∧
    detectLanguagePreference [some "rice 粥", (none : Option String)] = none ∧
    (searchParams { query := some "rice 粥" }).lang ≠ none :=
  ⟨rfl, rfl, by simp [searchParams]⟩

/-- C4 (amended): when the caller omits the language tag, a joined
query/meal-type text with CJK and no Latin yields "zh", Latin and no CJK
yields "en", and in every other case the language defaults to "zh" (and is
sent upstream) rather than being left undefined. -/
theorem language_inference_spec (input : SearchInput) (h : input.lang = none) :
    (textHasCjk (joinedCandidates [input.query, input.meal_type]) = true →
      textHasLatin (joinedCandidates [input.query, input.meal_type]) = false →
      searchLanguage input = "zh" ∧ (searchParams input).lang = some "zh") ∧
    (textHasLatin (joinedCandidates [input.query, input.meal_type]) = true →
      textHasCjk (joinedCandidates [input.query, input.meal_type]) = false →
      searchLanguage input = "en" ∧ (searchParams input).lang = some "en") ∧
    (detectLanguagePreference [input.query, input.meal_type] = none →
      searchLanguage input = "zh" ∧ (searchParams input).lang = some "zh") := by
  have hjoin : ∀ lng, detectLanguagePreference [input.query, input.meal_type] = some lng →
      searchLanguage input = lng ∧ (searchParams input).lang = some lng := by
    intro lng hd
    have hl : searchLanguage input = lng := by
      unfold searchLanguage
      rw [h, hd]
      rfl
    exact ⟨hl, by simp [searchParams, hl]⟩
  refine ⟨?_, ?_, ?_⟩
  · intro hcjk hlatin
    apply hjoin
    unfold detectLanguagePreference
    have hnonempty : ¬(joinedCandidates [input.query, input.meal_type] = "") := by
      intro he
      rw [he] at hcjk
      exact absurd hcjk (by decide)
    rw [if_neg hnonempty]
    simp [hcjk, hlatin]
  · intro hlatin hcjk
    apply hjoin
    unfold detectLanguagePreference
    have hnonempty : ¬(joinedCandidates [input.query, input.meal_type] = "") := by
      intro he
      rw [he] at hlatin
      exact absurd hlatin (by decide)
    rw [if_neg hnonempty]
    simp [hcjk, hlatin]
  · intro hd
    have hl : searchLanguage input = "zh" := by
      unfold searchLanguage
      rw [h, hd]
      rfl
    exact ⟨hl, by simp [searchParams, hl]⟩

/-- Witness for C4 (amended) on CJK-only, Latin-only and empty inputs. -/
theorem language_inference_spec_witness :
    searchLanguage { query := some "粥" } = "zh" ∧
    searchLanguage { query := some "rice" } = "en" ∧
    searchLanguage { } = "zh" :=
  ⟨((language_inference_spec { query := some "粥" } rfl).1 (by decide) (by decide)).1,
   ((language_inference_spec { query := some "rice" } rfl).2.1 (by decide) (by decide)).1,
   ((language_inference_spec { } rfl).2.2 (by decide)).1⟩

/-- C9: `toggleBookmark`/`toggleLike` map `active = true` to an upstream
POST (create) and `active = false` to a DELETE against the corresponding
endpoint, keep no local state, and two consecutive invocations with the same
arguments issue the identical upstream call twice. -/
theorem setInteraction_spec (recipe_id : String) (active : Bool) :
    ((toggleBookmarkHandler recipe_id active).1 =
      { method := if active then HttpMethod.post else HttpMethod.del,
        path := "/recipes/" ++ recipe_id ++ "/bookmark" }) ∧
    ((toggleLikeHandler recipe_id active).1 =
      { method := if active then HttpMethod.post else HttpMethod.del,
        path := "/recipes/" ++ recipe_id ++ "/like" }) ∧
    (toggleBookmarkCalls recipe_id active ++ toggleBookmarkCalls recipe_id active =
      [(toggleBookmarkHandler recipe_id active).1,
       (toggleBookmarkHandler recipe_id active).1]) ∧
    (toggleLikeCalls recipe_id active ++ toggleLikeCalls recipe_id active =
      [(toggleLikeHandler recipe_id active).1,
       (toggleLikeHandler recipe_id active).1]) := by
  cases active <;>
    simp [toggleBookmarkHandler, toggleLikeHandler, toggleRecipeInteraction,
      toggleBookmarkCalls, toggleLikeCalls]

/-- Witness for C1: with no query/meal-type and no age group against a
source with no list results, the cascade calls exact then featured only. -/
theorem search_fallback_cascade_witness :
    runCascade srcFeaturedOnly { } =
      ([.list { }, .featured (featuredParamsOf .exact { })],
       .ok ⟨.featuredFallback, [recStage1, recStage2], emptyPage⟩) :=
  (search_fallback_cascade srcFeaturedOnly { }).2.2.2.2.2.2.2.2.2.2.2
    emptyPage featuredPage rfl rfl (by decide) rfl rfl

/-- C2: a zero-result outcome at every attempted tier is not an error — the
handler returns an empty recipe list with strategy featuredFallback; a
collaborator error raised during the call of any tier propagates
immediately to the caller, is not retried, and no further fallback tier is
attempted after it (the call trace ends at the failing call). -/
theorem search_zero_and_error_spec (src : RecipeSource) (input : SearchInput) :
    ((∀ p, ∃ r, src.listRecipes p = .ok r ∧ r.data = []) →
     (∀ p, ∃ r, src.getFeaturedRecipes p = .ok r ∧ r.data = []) →
     ∃ calls s, searchHandler src input = (calls, .ok s) ∧ s.recipes = [] ∧
       s.search_strategy = .featuredFallback) ∧
    (∀ e, src.listRecipes (searchParams input) = .error e →
      searchHandler src input = ([.list (searchParams input)], .error e)) ∧
    (∀ e r1, src.listRecipes (searchParams input) = .ok r1 → r1.data = [] →
      (truthyS (searchParams input).search_query
        || truthyS (searchParams input).food_type) = true →
      src.listRecipes (relaxedParams (searchParams input)) = .error e →
      searchHandler src input =
        ([.list (searchParams input), .list (relaxedParams (searchParams input))],
         .error e)) ∧
    (∀ e r1 r2 g, src.listRecipes (searchParams input) = .ok r1 → r1.data = [] →
      (truthyS (searchParams input).search_query
        || truthyS (searchParams input).food_type) = true →
      src.listRecipes (relaxedParams (searchParams input)) = .ok r2 → r2.data = [] →
      (searchParams input).age_group = some g →
      src.listRecipes (ageAgnosticParams (searchParams input)) = .error e →
      searchHandler src input =
        ([.list (searchParams input), .list (relaxedParams (searchParams input)),
          .list (ageAgnosticParams (searchParams input))], .error e)) ∧
    (∀ e r1 g, src.listRecipes (searchParams input) = .ok r1 → r1.data = [] →
      (truthyS (searchParams input).search_query
        || truthyS (searchParams input).food_type) = false →
      (searchParams input).age_group = some g →
      src.listRecipes (ageAgnosticParams (searchParams input)) = .error e →
      searchHandler src input =
        ([.list (searchParams input), .list (ageAgnosticParams (searchParams input))],
         .error e)) ∧
    (∀ e r1 r2 r3 g, src.listRecipes (searchParams input) = .ok r1 → r1.data = [] →
      (truthyS (searchParams input).search_query
        || truthyS (searchParams input).food_type) = true →
      src.listRecipes (relaxedParams (searchParams input)) = .ok r2 → r2.data = [] →
      (searchParams input).age_group = some g →
      src.listRecipes (ageAgnosticParams (searchParams input)) = .ok r3 → r3.data = [] →
      src.getFeaturedRecipes (featuredParamsOf .ageAgnostic (searchParams input)) =
        .error e →
      searchHandler src input =
        ([.list (searchParams input), .list (relaxedParams (searchParams input)),
          .list (ageAgnosticParams (searchParams input)),
          .featured (featuredParamsOf .ageAgnostic (searchParams input))], .error e)) ∧
    (∀ e r1 r2, src.listRecipes (searchParams input) = .ok r1 → r1.data = [] →
      (truthyS (searchParams input).search_query
        || truthyS (searchParams input).food_type) = true →
      src.listRecipes (relaxedParams (searchParams input)) = .ok r2 → r2.data = [] →
      (searchParams input).age_group = none →
      src.getFeaturedRecipes (featuredParamsOf .relaxed (searchParams input)) =
        .error e →
      searchHandler src input =
        ([.list (searchParams input), .list (relaxedParams (searchParams input)),
          .featured (featuredParamsOf .relaxed (searchParams input))], .error e)) ∧
    (∀ e r1 r3 g, src.listRecipes (searchParams input) = .ok r1 → r1.data = [] →
      (truthyS (searchParams input).search_query
        || truthyS (searchParams input).food_type) = false →
      (searchParams input).age_group = some g →
      src.listRecipes (ageAgnosticParams (searchParams input)) = .ok r3 → r3.data = [] →
      src.getFeaturedRecipes (featuredParamsOf .ageAgnostic (searchParams input)) =
        .error e →
      searchHandler src input =
        ([.list (searchParams input), .list (ageAgnosticParams (searchParams input)),
          .featured (featuredParamsOf .ageAgnostic (searchParams input))], .error e)) ∧
    (∀ e r1, src.listRecipes (searchParams input) = .ok r1 → r1.data = [] →
      (truthyS (searchParams input).search_query
        || truthyS (searchParams input).food_type) = false →
      (searchParams input).age_group = none →
      src.getFeaturedRecipes (featuredParamsOf .exact (searchParams input)) = .error e →
      searchHandler src input =
        ([.list (searchParams input),
          .featured (featuredParamsOf .exact (searchParams input))], .error e)) := by
  refine ⟨?_, ?_, ?_, ?_, ?_, ?_, ?_, ?_, ?_⟩
  · intro hL hF
    obtain ⟨r1, h1, h1e⟩ := hL (searchParams input)
    by_cases hq : (truthyS (searchParams input).search_query
        || truthyS (searchParams input).food_type) = true
    · obtain ⟨r2, h2, h2e⟩ := hL (relaxedParams (searchParams input))
      cases hage : (searchParams input).age_group with
      | some g =>
        obtain ⟨r3, h3, h3e⟩ := hL (ageAgnosticParams (searchParams input))
        obtain ⟨rf, hf, hfe⟩ := hF (featuredParamsOf .ageAgnostic (searchParams input))
        have hrun := cascade_featured_full src (searchParams input) r1 r2 r3 rf g
          h1 h1e hq h2 h2e hage h3 h3e hf
        refine ⟨_, _, searchHandler_of_cascade_ok src input _ _ hrun, ?_, rfl⟩
        simp [searchFiltered, hfe]
      | none =>
        obtain ⟨rf, hf, hfe⟩ := hF (featuredParamsOf .relaxed (searchParams input))
        have hrun := cascade_featured_q_noAge src (searchParams input) r1 r2 rf
          h1 h1e hq h2 h2e hage hf
        refine ⟨_, _, searchHandler_of_cascade_ok src input _ _ hrun, ?_, rfl⟩
        simp [searchFiltered, hfe]
    · have hq' : (truthyS (searchParams input).search_query
          || truthyS (searchParams input).food_type) = false := by
        simpa using hq
      cases hage : (searchParams input).age_group with
      | some g =>
        obtain ⟨r3, h3, h3e⟩ := hL (ageAgnosticParams (searchParams input))
        obtain ⟨rf, hf, hfe⟩ := hF (featuredParamsOf .ageAgnostic (searchParams input))
        have hrun := cascade_featured_noQ_age src (searchParams input) r1 r3 rf g
          h1 h1e hq' hage h3 h3e hf
        refine ⟨_, _, searchHandler_of_cascade_ok src input _ _ hrun, ?_, rfl⟩
        simp [searchFiltered, hfe]
      | none =>
        obtain ⟨rf, hf, hfe⟩ := hF (featuredParamsOf .exact (searchParams input))
        have hrun := cascade_featured_noQ_noAge src (searchParams input) r1 rf
          h1 h1e hq' hage hf
        refine ⟨_, _, searchHandler_of_cascade_ok src input _ _ hrun, ?_, rfl⟩
        simp [searchFiltered, hfe]
  · intro e he
    exact searchHandler_of_cascade_err src input _ e
      (runCascade_of_err src (searchParams input) e he)
  · intro e r1 h1 h1e hq herr
    exact searchHandler_of_cascade_err src input _ e
      (cascade_err_t2 src (searchParams input) r1 e h1 h1e hq herr)
  · intro e r1 r2 g h1 h1e hq h2 h2e hage herr
    exact searchHandler_of_cascade_err src input _ e
      (cascade_err_t3_afterRelaxed src (searchParams input) r1 r2 g e
        h1 h1e hq h2 h2e hage herr)
  · intro e r1 g h1 h1e hq hage herr
    exact searchHandler_of_cascade_err src input _ e
      (cascade_err_t3_direct src (searchParams input) r1 g e h1 h1e hq hage herr)
  · intro e r1 r2 r3 g h1 h1e hq h2 h2e hage h3 h3e herr
    exact searchHandler_of_cascade_err src input _ e
      (cascade_err_t4_full src (searchParams input) r1 r2 r3 g e
        h1 h1e hq h2 h2e hage h3 h3e herr)
  · intro e r1 r2 h1 h1e hq h2 h2e hage herr
    exact searchHandler_of_cascade_err src input _ e
      (cascade_err_t4_q_noAge src (searchParams input) r1 r2 e
        h1 h1e hq h2 h2e hage herr)
  · intro e r1 r3 g h1 h1e hq hage h3 h3e herr
    exact searchHandler_of_cascade_err src input _ e
      (cascade_err_t4_noQ_age src (searchParams input) r1 r3 g e
        h1 h1e hq hage h3 h3e herr)
  · intro e r1 h1 h1e hq hage herr
    exact searchHandler_of_cascade_err src input _ e
      (cascade_err_t4_noQ_noAge src (searchParams input) r1 e h1 h1e hq hage herr)

/-- Witness for C2: an all-empty source yields an empty featuredFallback
result without error, and a failing source propagates the tier-1 error. -/
theorem search_zero_and_error_spec_witness :
    (∃ calls s, searchHandler srcAllEmpty { } = (calls, .ok s) ∧ s.recipes = [] ∧
      s.search_strategy = .featuredFallback) ∧
    searchHandler srcDown { } =
      ([.list (searchParams { })],
       .error ⟨"SolidStart API error (no-status): timeout"⟩) :=
  ⟨(search_zero_and_error_spec srcAllEmpty { }).1
      (fun _ => ⟨emptyPage, rfl, rfl⟩) (fun _ => ⟨emptyPage, rfl, rfl⟩),
   (search_zero_and_error_spec srcDown { }).2.1
      ⟨"SolidStart API error (no-status): timeout"⟩ rfl⟩

/-- C6: when a normalized stage was explicitly requested, the local
post-filter excludes every recipe whose age group differs, regardless of
which fallback tier (including ageAgnostic and featuredFallback, which drop
the age group upstream) produced the candidates. -/
theorem stage_filter_spec (src : RecipeSource) (input : SearchInput)
    (calls : List SourceCall) (s : SearchStructured) (st : AgeGroup)
    (hrun : searchHandler src input = (calls, .ok s))
    (hstage : resolvedStage input = some st) :
    ∀ r ∈ s.recipes, r.age_group = st := by
  cases hc : runCascade src (searchParams input) with
  | mk calls2 out =>
    cases out with
    | error e =>
      rw [searchHandler_of_cascade_err src input calls2 e hc] at hrun
      simp at hrun
    | ok res =>
      rw [searchHandler_of_cascade_ok src input calls2 res hc] at hrun
      simp only [Prod.mk.injEq, Except.ok.injEq] at hrun
      obtain ⟨-, hs⟩ := hrun
      subst hs
      intro r hr
      exact mem_searchFiltered_stage input res.candidates st r hstage hr

/-- Witness for C6: a requested stage "2" filters a featured-fallback
candidate set down to the STAGE_2 recipe. -/
theorem stage_filter_spec_witness : recStage2.age_group = AgeGroup.STAGE_2 :=
  stage_filter_spec srcFeaturedOnly { stage := some "2" }
    [.list (searchParams { stage := some "2" }),
     .list (ageAgnosticParams (searchParams { stage := some "2" })),
     .featured (featuredParamsOf .ageAgnostic (searchParams { stage := some "2" }))]
    { age_group := some AgeGroup.STAGE_2, limit := 12, pagination_received := 2,
      pagination_count := 0, pagination_page := 1, pagination_per_page := 12,
      pagination_total_pages := 0, excluded_due_to_allergens := 1,
      recipes := [recStage2], search_strategy := .featuredFallback,
      language := "zh" }
    AgeGroup.STAGE_2 (by rfl) (by rfl) recStage2 (by simp)

/-- C10: whenever the featuredFallback tier fires, the pagination echo
fields (count, page, per_page, total_pages) come from the last `listRecipes`
response of the preceding tier — which returned zero candidates — not from
the featured call, while `received` equals the number of featured
candidates. -/
theorem featured_pagination_echo (src : RecipeSource) (input : SearchInput) :
    (∀ r1 r2 r3 rf g, src.listRecipes (searchParams input) = .ok r1 → r1.data = [] →
      (truthyS (searchParams input).search_query
        || truthyS (searchParams input).food_type) = true →
      src.listRecipes (relaxedParams (searchParams input)) = .ok r2 → r2.data = [] →
      (searchParams input).age_group = some g →
      src.listRecipes (ageAgnosticParams (searchParams input)) = .ok r3 → r3.data = [] →
      src.getFeaturedRecipes (featuredParamsOf .ageAgnostic (searchParams input)) =
        .ok rf →
      ∃ calls s, searchHandler src input = (calls, .ok s) ∧
        s.search_strategy = .featuredFallback ∧
        s.pagination_count = r3.count ∧ s.pagination_page = r3.page ∧
        s.pagination_per_page = r3.per_page ∧
        s.pagination_total_pages = r3.total_pages ∧
        s.pagination_received = rf.data.length) ∧
    (∀ r1 r2 rf, src.listRecipes (searchParams input) = .ok r1 → r1.data = [] →
      (truthyS (searchParams input).search_query
        || truthyS (searchParams input).food_type) = true →
      src.listRecipes (relaxedParams (searchParams input)) = .ok r2 → r2.data = [] →
      (searchParams input).age_group = none →
      src.getFeaturedRecipes (featuredParamsOf .relaxed (searchParams input)) =
        .ok rf →
      ∃ calls s, searchHandler src input = (calls, .ok s) ∧
        s.search_strategy = .featuredFallback ∧
        s.pagination_count = r2.count ∧ s.pagination_page = r2.page ∧
        s.pagination_per_page = r2.per_page ∧
        s.pagination_total_pages = r2.total_pages ∧
        s.pagination_received = rf.data.length) ∧
    (∀ r1 r3 rf g, src.listRecipes (searchParams input) = .ok r1 → r1.data = [] →
      (truthyS (searchParams input).search_query
        || truthyS (searchParams input).food_type) = false →
      (searchParams input).age_group = some g →
      src.listRecipes (ageAgnosticParams (searchParams input)) = .ok r3 → r3.data = [] →
      src.getFeaturedRecipes (featuredParamsOf .ageAgnostic (searchParams input)) =
        .ok rf →
      ∃ calls s, searchHandler src input = (calls, .ok s) ∧
        s.search_strategy = .featuredFallback ∧
        s.pagination_count = r3.count ∧ s.pagination_page = r3.page ∧
        s.pagination_per_page = r3.per_page ∧
        s.pagination_total_pages = r3.total_pages ∧
        s.pagination_received = rf.data.length) ∧
    (∀ r1 rf, src.listRecipes (searchParams input) = .ok r1 → r1.data = [] →
      (truthyS (searchParams input).search_query
        || truthyS (searchParams input).food_type) = false →
      (searchParams input).age_group = none →
      src.getFeaturedRecipes (featuredParamsOf .exact (searchParams input)) = .ok rf →
      ∃ calls s, searchHandler src input = (calls, .ok s) ∧
        s.search_strategy = .featuredFallback ∧
        s.pagination_count = r1.count ∧ s.pagination_page = r1.page ∧
        s.pagination_per_page = r1.per_page ∧
        s.pagination_total_pages = r1.total_pages ∧
        s.pagination_received = rf.data.length) := by
  refine ⟨?_, ?_, ?_, ?_⟩
  · intro r1 r2 r3 rf g h1 h1e hq h2 h2e hage h3 h3e hf
    have hrun := cascade_featured_full src (searchParams input) r1 r2 r3 rf g
      h1 h1e hq h2 h2e hage h3 h3e hf
    exact ⟨_, _, searchHandler_of_cascade_ok src input _ _ hrun,
      rfl, rfl, rfl, rfl, rfl, rfl⟩
  · intro r1 r2 rf h1 h1e hq h2 h2e hage hf
    have hrun := cascade_featured_q_noAge src (searchParams input) r1 r2 rf
      h1 h1e hq h2 h2e hage hf
    exact ⟨_, _, searchHandler_of_cascade_ok src input _ _ hrun,
      rfl, rfl, rfl, rfl, rfl, rfl⟩
  · intro r1 r3 rf g h1 h1e hq hage h3 h3e hf
    have hrun := cascade_featured_noQ_age src (searchParams input) r1 r3 rf g
      h1 h1e hq hage h3 h3e hf
    exact ⟨_, _, searchHandler_of_cascade_ok src input _ _ hrun,
      rfl, rfl, rfl, rfl, rfl, rfl⟩
  · intro r1 rf h1 h1e hq hage hf
    have hrun := cascade_featured_noQ_noAge src (searchParams input) r1 rf
      h1 h1e hq hage hf
    exact ⟨_, _, searchHandler_of_cascade_ok src input _ _ hrun,
      rfl, rfl, rfl, rfl, rfl, rfl⟩

/-- Witness for C10: featuredFallback fires with two featured candidates;
the echoed pagination comes from the empty list response (count 0, per_page
12) while received is 2. -/
theorem featured_pagination_echo_witness :
    ∃ calls s, searchHandler srcFeaturedOnly { } = (calls, .ok s) ∧
      s.search_strategy = .featuredFallback ∧
      s.pagination_count = 0 ∧ s.pagination_page = 1 ∧
      s.pagination_per_page = 12 ∧ s.pagination_total_pages = 0 ∧
      s.pagination_received = 2 :=
  (featured_pagination_echo srcFeaturedOnly { }).2.2.2 emptyPage featuredPage
    rfl rfl (by decide) rfl rfl

end DearBaby
